import Mathlib

/-
Shallow embedding of the fast.com exporter core (src/fast/api.go).

The Go program measures download throughput:
  Measure() obtains a URL pool from findURLs(), then runs a loop bounded by a
  10-second context deadline, acquiring a slot of a weighted semaphore of
  capacity 8 before launching each fetch goroutine; each goroutine selects a
  URL round-robin from a shared int32 counter, fetches it with doMeasure,
  atomically adds the byte count to a shared accumulator, and releases its
  slot.  After the loop breaks on the deadline, errgroup.Wait joins all
  goroutines and the first non-nil goroutine error is inspected; deadline
  errors are swallowed, other errors abort with zero throughput; otherwise
  the byte total divided by the elapsed seconds is returned.

External effects (HTTP bodies, regex match results, goroutine interleavings,
semaphore acquisition outcomes, wall-clock time) are supplied as explicit
oracle inputs; the control flow, the counter arithmetic (including the
int32 width of the dispatch counter and the Go truncated modulo), the
semaphore discipline and the error classification are translated from the
source.
-/

namespace Fast

/-- Model of Go error values as classified by the program: the only
distinction the code makes (isUnexpectedError, line 70-72) is whether an
error is context.DeadlineExceeded. -/
inductive GoErr
  | deadlineExceeded
  | canceled
  | other (msg : String)
deriving DecidableEq, Repr

/-- Lines 70-72: err != nil && !errors.Is(err, context.DeadlineExceeded). -/
def isUnexpectedError : Option GoErr → Bool
  | none => false
  | some GoErr.deadlineExceeded => false
  | some _ => true

/-- Oracle for one doMeasure call (lines 74-86): the outcome of
http.NewRequestWithContext, of http.DefaultClient.Do (with the response
status code, which the code never reads), and of io.Copy(io.Discard, body)
(bytes streamed before returning, and its error, if any). -/
structure FetchEnv where
  newRequestErr : Option GoErr
  doErr : Option GoErr
  statusCode : Nat
  copied : Nat
  copyErr : Option GoErr
deriving DecidableEq, Repr

/-- Lines 74-86: doMeasure returns (0, err) if request construction fails,
(0, err) if the transport-level Do fails, and otherwise the result of
io.Copy on the response body.  The status code is never inspected. -/
def doMeasure (env : FetchEnv) : Nat × Option GoErr :=
  match env.newRequestErr with
  | some e => (0, some e)
  | none =>
    match env.doErr with
    | some e => (0, some e)
    | none => (env.copied, env.copyErr)

/-- A Go computation that either produces a value or aborts the process
with a runtime panic. -/
inductive PanicOr (α : Type)
  | panic (msg : String)
  | ok (val : α)
deriving DecidableEq, Repr

/-- Oracle for the sequential scraping pipeline (lines 88-130).  The fields
are the getPage errors (which the code only logs, lines 94-96, 109-111,
118-120) and the regex match lists the Go regexp engine produced on the
fetched bodies:
  scriptNames = jsRE.FindAllString(fastBody, 1)         (line 113),
  tokens      = tokenRE.FindAllString(scriptBody, 1)    (line 121),
  urlMatches  = urlRE.FindAllStringSubmatch(jsonData, -1) (line 99), each
element being the (full match, capture group 1) pair, since urlRE has
exactly one capture group. -/
structure ScrapeEnv where
  fastErr : Option GoErr
  scriptNames : List String
  scriptErr : Option GoErr
  tokens : List String
  jsonErr : Option GoErr
  urlMatches : List (String × String)
deriving DecidableEq, Repr

/-- Lines 107-130: getToken ignores getPage errors (logged only), then
indexes scriptNames[0] unconditionally (line 114) - a runtime panic when no
script matched - and, if a token matched, slices off the seven-byte prefix
and the closing quote (tokens[0][7 : len-1], line 124); when no token
matched it logs a warning and returns the empty string (lines 128-129). -/
def getToken (env : ScrapeEnv) : PanicOr String :=
  match env.scriptNames with
  | [] => PanicOr.panic "index out of range"
  | _ :: _ =>
    match env.tokens with
    | [] => PanicOr.ok ""
    | t :: _ => PanicOr.ok ((t.drop 7).dropRight 1)

/-- Lines 88-105: findURLs calls getToken, ignores the getPage error of the
API call (logged only, lines 94-96), and collects capture group 1 of every
urlRE match (lines 98-102).  Its Go return type is []string: there is no
error channel at all, so a pattern that matches nothing yields the empty
slice. -/
def findURLs (env : ScrapeEnv) : PanicOr (List String) :=
  match getToken env with
  | PanicOr.panic m => PanicOr.panic m
  | PanicOr.ok _ => PanicOr.ok (env.urlMatches.map Prod.snd)

/-- The int32 value reached after n increments from zero: the dispatch
counter idx is declared int32 (line 34) and incremented with
atomic.AddInt32 (line 56), so it wraps at 2^31. -/
def int32wrap (n : Nat) : Int :=
  (((n + 2 ^ 31) % 2 ^ 32 : Nat) : Int) - 2 ^ 31

/-- The Go % on int operands: truncated division remainder, whose sign
follows the dividend (here the divisor is always positive). -/
def goMod (a b : Int) : Int :=
  if 0 ≤ a then ((a.toNat % b.natAbs : Nat) : Int)
  else -(((-a).toNat % b.natAbs : Nat) : Int)

/-- Line 55: urls[int(idx)%len(urls)] where observed is the int32 counter
value that the plain read of the unit saw.  With an empty pool the modulo faults
(integer divide by zero); a negative remainder (possible once the int32
counter has wrapped) faults as an out-of-range index. -/
def selectURL (urls : List String) (observed : Nat) : PanicOr String :=
  match urls with
  | [] => PanicOr.panic "integer divide by zero"
  | _ :: _ =>
    let i : Int := goMod (int32wrap observed) (urls.length : Int)
    if h : 0 ≤ i ∧ i.toNat < urls.length then PanicOr.ok (urls.get ⟨i.toNat, h.2⟩)
    else PanicOr.panic "index out of range"

/-- One primitive memory operation of a dispatched unit on the shared
dispatch counter: the plain read in line 55 or the atomic add in line 56,
tagged with the unit that performs it.  The two are separate operations in
the source, so operations of concurrently started units may interleave. -/
inductive CtrOp
  | read (t : Nat)
  | add (t : Nat)
deriving DecidableEq, Repr

/-- The unit an operation belongs to. -/
def CtrOp.task : CtrOp → Nat
  | CtrOp.read t => t
  | CtrOp.add t => t

/-- The counter value that the read of unit t observes in a given interleaving: the
number of atomic adds that precede its read. -/
def obsValue : List CtrOp → Nat → Nat
  | [], _ => 0
  | CtrOp.read u :: rest, t => if u = t then 0 else obsValue rest t
  | CtrOp.add _ :: rest, t => obsValue rest t + 1

/-- Scanning the interleaving, the read of unit t occurs before the add of unit t. -/
def readBeforeAdd : List CtrOp → Nat → Bool
  | [], _ => false
  | CtrOp.read u :: rest, t => if u = t then true else readBeforeAdd rest t
  | CtrOp.add u :: rest, t => if u = t then false else readBeforeAdd rest t

/-- A well-formed interleaving of n dispatched units: each unit reads the
counter exactly once and atomically increments it exactly once, its read
preceding its add (the order of lines 55-56 within the goroutine), and no
other unit touches the counter. -/
def ValidSched (n : Nat) (s : List CtrOp) : Prop :=
  (∀ t, t < n →
    s.count (CtrOp.read t) = 1 ∧ s.count (CtrOp.add t) = 1 ∧
    readBeforeAdd s t = true) ∧
  (∀ op ∈ s, op.task < n)

instance (n : Nat) (s : List CtrOp) : Decidable (ValidSched n s) := by
  unfold ValidSched
  exact instDecidableAnd

/-- The serialized interleaving of units k, k+1, ..., k+m-1: the read and add of each unit complete before the next unit starts. -/
def seqFrom : Nat → Nat → List CtrOp
  | _, 0 => []
  | k, Nat.succ m => CtrOp.read k :: CtrOp.add k :: seqFrom (k + 1) m

/-- The serialized interleaving of units 0, ..., n-1 in dispatch order. -/
def seqSched (n : Nat) : List CtrOp := seqFrom 0 n

/-- The URL assigned to unit t under a given counter interleaving. -/
def taskURL (urls : List String) (sched : List CtrOp) (t : Nat) : PanicOr String :=
  selectURL urls (obsValue sched t)

/-- Line 21: const maxConcurrentRequests = 8, the weight of the semaphore
created in line 37. -/
def maxConcurrentRequests : Nat := 8

/-- The shared state of the dispatch loop (lines 44-62) and of the weighted
semaphore.  semCur is the held weight of the semaphore; slotted and phantom
count in-flight goroutines that do and do not hold a slot (a goroutine is
dispatched without a slot when sem.Acquire fails with the deadline error,
because line 50 only returns on unexpected errors and then falls through
to wg.Go); panicked records that a sem.Release drove the held weight
negative, which panics the process (semaphore: released more than held);
returnedErr records an early return from line 51. -/
structure LoopSt where
  expired : Bool
  inAcquire : Bool
  broke : Bool
  semCur : Nat
  slotted : Nat
  phantom : Nat
  dispatched : Nat
  phantomLaunched : Nat
  phantomFinished : Nat
  panicked : Bool
  returnedErr : Option GoErr
deriving DecidableEq, Repr

/-- The state at entry of the loop: nothing dispatched, semaphore free. -/
def initSt : LoopSt :=
  ⟨false, false, false, 0, 0, 0, 0, 0, 0, false, none⟩

/-- Observable events of one run of the loop:
  expire       - the 10-second context deadline fires;
  enterDefault - the select in lines 46-49 finds ctx.Done not ready and
                 enters the default branch, calling sem.Acquire;
  acqRet r     - the pending sem.Acquire returns r (none on success, which
                 requires free weight and a live context; the deadline
                 error requires the context to have expired; the code then
                 dispatches via wg.Go in both cases, and returns early only
                 on an unexpected error);
  ctxBreak     - the select finds ctx.Done ready and breaks the loop;
  finish held  - an in-flight goroutine completes (with or without a held
                 slot) and its deferred sem.Release(1) runs. -/
inductive Ev
  | expire
  | enterDefault
  | acqRet (r : Option GoErr)
  | ctxBreak
  | finish (held : Bool)
deriving DecidableEq, Repr

/-- sem.Release(1): golang.org/x/sync/semaphore panics when the released
weight exceeds the held weight. -/
def release (st : LoopSt) : LoopSt :=
  if st.semCur = 0 then { st with panicked := true }
  else { st with semCur := st.semCur - 1 }

/-- One transition of the loop; none means the event is not enabled in the
given state (so a list of events is a legal run only if every step is
enabled). -/
def step (st : LoopSt) : Ev → Option LoopSt
  | Ev.expire =>
    if st.panicked = false ∧ st.expired = false then
      some { st with expired := true }
    else none
  | Ev.enterDefault =>
    if st.panicked = false ∧ st.expired = false ∧ st.inAcquire = false ∧
        st.broke = false ∧ st.returnedErr = none then
      some { st with inAcquire := true }
    else none
  | Ev.acqRet r =>
    if st.panicked = false ∧ st.inAcquire = true then
      match r with
      | none =>
        if st.expired = false ∧ st.semCur < maxConcurrentRequests then
          some { st with
            inAcquire := false, semCur := st.semCur + 1,
            slotted := st.slotted + 1, dispatched := st.dispatched + 1 }
        else none
      | some GoErr.deadlineExceeded =>
        if st.expired = true then
          some { st with
            inAcquire := false, phantom := st.phantom + 1,
            dispatched := st.dispatched + 1,
            phantomLaunched := st.phantomLaunched + 1 }
        else none
      | some e => some { st with inAcquire := false, returnedErr := some e }
    else none
  | Ev.ctxBreak =>
    if st.panicked = false ∧ st.expired = true ∧ st.inAcquire = false ∧
        st.broke = false ∧ st.returnedErr = none then
      some { st with broke := true }
    else none
  | Ev.finish held =>
    if st.panicked = false then
      if held then
        if st.slotted ≠ 0 then some (release { st with slotted := st.slotted - 1 })
        else none
      else
        if st.phantom ≠ 0 then
          some (release { st with
            phantom := st.phantom - 1,
            phantomFinished := st.phantomFinished + 1 })
        else none
    else none

/-- Run a sequence of loop events from a state. -/
def runEvents : List Ev → LoopSt → Option LoopSt
  | [], st => some st
  | e :: rest, st =>
    match step st e with
    | none => none
    | some st2 => runEvents rest st2

/-- The loop has broken on the deadline and every dispatched goroutine has
finished, so errgroup.Wait (line 64) has returned. -/
def LoopSt.completed (st : LoopSt) : Prop :=
  st.broke = true ∧ st.slotted = 0 ∧ st.phantom = 0

instance (st : LoopSt) : Decidable st.completed := by
  unfold LoopSt.completed
  exact instDecidableAnd

/-- The outcome one dispatched goroutine reported: the byte count and error
of its doMeasure call (lines 57-59). -/
structure TaskResult where
  bytes : Nat
  err : Option GoErr
deriving DecidableEq, Repr

/-- errgroup.Group keeps the first non-nil error returned by any goroutine,
in completion order; Wait returns it (line 64). -/
def firstErr : List TaskResult → Option GoErr
  | [] => none
  | r :: rest =>
    match r.err with
    | some e => some e
    | none => firstErr rest

/-- The shared byte accumulator: every goroutine executes
atomic.AddInt64(&sumBytes, bytes) exactly once (line 58), on success and on
failure alike, so the final value is the left fold of the adds in
completion order. -/
def accumulate (results : List TaskResult) : Nat :=
  results.foldl (fun acc r => acc + r.bytes) 0

/-- Line 55 evaluated by the first dispatched goroutine: with an empty pool
the modulo by len(urls) = 0 is a runtime fault. -/
def poolPanic (urls : List String) (dispatched : Nat) : Option String :=
  if dispatched ≠ 0 ∧ urls.length = 0 then some "integer divide by zero"
  else none

/-- What a run of Measure does: crash the process with a runtime panic, or
return a throughput and an error value. -/
inductive MeasureOutcome
  | panic (msg : String)
  | result (throughput : ℚ) (err : Option GoErr)
deriving DecidableEq, Repr

/-- Lines 37-67 of Measure, after findURLs returned the pool: run the
dispatch loop over the given events; a release panic crashes; an early
return from line 51 yields (0, err); with an empty pool any dispatched
goroutine faults on the modulo; otherwise the first goroutine error is
classified (lines 64-66) and either (0, err) is returned for an unexpected
error or the accumulated bytes over the elapsed seconds with a nil error
(line 67).  results lists the goroutine outcomes in completion order and
elapsed is time.Since(start).Seconds() taken after Wait returned. -/
def measureLoop (urls : List String) (events : List Ev)
    (results : List TaskResult) (elapsed : ℚ) : Option MeasureOutcome :=
  match runEvents events initSt with
  | none => none
  | some st =>
    if st.panicked then some (MeasureOutcome.panic "semaphore: released more than held")
    else
      match st.returnedErr with
      | some e => some (MeasureOutcome.result 0 (some e))
      | none =>
        match poolPanic urls st.dispatched with
        | some m => some (MeasureOutcome.panic m)
        | none =>
          let ge := firstErr results
          if isUnexpectedError ge then some (MeasureOutcome.result 0 ge)
          else some (MeasureOutcome.result ((accumulate results : ℚ) / elapsed) none)

/-- Lines 31-68: Measure obtains the pool from findURLs (line 36, a panic
there crashes Measure) and then runs the measurement loop. -/
def Measure (senv : ScrapeEnv) (events : List Ev)
    (results : List TaskResult) (elapsed : ℚ) : Option MeasureOutcome :=
  match findURLs senv with
  | PanicOr.panic m => some (MeasureOutcome.panic m)
  | PanicOr.ok urls => measureLoop urls events results elapsed

/-- A scraping oracle in which every extraction stage succeeds and the API
response contains exactly one url field, so findURLs yields a one-element
pool. -/
def okScrapeEnv : ScrapeEnv :=
  ⟨none, ["app-x.js"], none, ["token:\"abc\""], none,
    [("\"url\":\"https://u\"", "https://u")]⟩

/-- A complete two-dispatch run: two slots acquired and two goroutines
dispatched, the deadline fires, the loop breaks, both goroutines finish and
release. -/
def twoDispatchTrace : List Ev :=
  [Ev.enterDefault, Ev.acqRet none, Ev.enterDefault, Ev.acqRet none,
   Ev.expire, Ev.ctxBreak, Ev.finish true, Ev.finish true]

/-- Eight slots are acquired and held; a ninth acquisition blocks, the
deadline fires while it waits, Acquire returns the deadline error, and the
code dispatches the unit anyway. -/
def overloadTrace : List Ev :=
  [Ev.enterDefault, Ev.acqRet none, Ev.enterDefault, Ev.acqRet none,
   Ev.enterDefault, Ev.acqRet none, Ev.enterDefault, Ev.acqRet none,
   Ev.enterDefault, Ev.acqRet none, Ev.enterDefault, Ev.acqRet none,
   Ev.enterDefault, Ev.acqRet none, Ev.enterDefault, Ev.acqRet none,
   Ev.enterDefault, Ev.expire, Ev.acqRet (some GoErr.deadlineExceeded)]

/-- The deadline fires while the very first acquisition waits: the unit is
dispatched without a held slot, the loop breaks, and the deferred
Release of the unit over-releases the semaphore. -/
def deadlineAcquireTrace : List Ev :=
  [Ev.enterDefault, Ev.expire, Ev.acqRet (some GoErr.deadlineExceeded),
   Ev.ctxBreak, Ev.finish false]

/-- A scraping oracle in which the landing page and the script are found
but the API response matches no url field: findURLs returns the empty
pool with no error. -/
def emptyPoolScrapeEnv : ScrapeEnv :=
  ⟨none, ["app-x.js"], none, ["token:\"abc\""], none, []⟩

/-- The claim that every dispatched unit of work with dispatch sequence
number t is assigned the endpoint at index t mod L, for every well-formed
interleaving of the counter operations of the units. -/
def ClaimC1Stated : Prop :=
  ∀ (urls : List String) (n : Nat) (sched : List CtrOp) (t : Nat),
    urls ≠ [] → ValidSched n sched → t < n →
    taskURL urls sched t = PanicOr.ok (urls[t % urls.length]!)

/-- The claim that whenever any single dispatched fetch fails with an
error not attributable to the deadline, Measure returns that error with
zero throughput. -/
def ClaimC4Stated : Prop :=
  ∀ (senv : ScrapeEnv) (urls : List String) (events : List Ev)
    (results : List TaskResult) (elapsed : ℚ) (st : LoopSt)
    (r : TaskResult) (e : GoErr),
    findURLs senv = PanicOr.ok urls → urls ≠ [] →
    runEvents events initSt = some st → st.completed →
    st.returnedErr = none → results.length = st.dispatched →
    r ∈ results → r.err = some e → e ≠ GoErr.deadlineExceeded →
    Measure senv events results elapsed = some (MeasureOutcome.result 0 (some e))

theorem int32wrap_eq_of_lt {n : Nat} (h : n < 2 ^ 31) : int32wrap n = n := by
  unfold int32wrap
  have h2 : n + 2 ^ 31 < 2 ^ 32 := by omega
  rw [Nat.mod_eq_of_lt h2]
  push_cast
  omega

theorem goMod_coe (a b : Nat) : goMod (a : Int) (b : Int) = ((a % b : Nat) : Int) := by
  unfold goMod
  rw [if_pos (Int.ofNat_nonneg a)]
  simp

theorem selectURL_eq_ok (urls : List String) (t : Nat)
    (hne : urls ≠ []) (h31 : t < 2 ^ 31) :
    selectURL urls t = PanicOr.ok (urls[t % urls.length]!) := by
  cases urls with
  | nil => exact absurd rfl hne
  | cons u us =>
    have hlen : 0 < (u :: us).length := by simp
    have hmod : t % (u :: us).length < (u :: us).length := Nat.mod_lt _ hlen
    have hw : goMod (int32wrap t) ((u :: us).length : Int) =
        ((t % (u :: us).length : Nat) : Int) := by
      rw [int32wrap_eq_of_lt h31, goMod_coe]
    simp only [selectURL, hw]
    rw [dif_pos ⟨Int.ofNat_nonneg _, by simpa using hmod⟩]
    rw [getElem!_pos (u :: us) (t % (u :: us).length) hmod]
    simp only [List.get_eq_getElem]
    congr 1

theorem obsValue_seqFrom (m k t : Nat) (h1 : k ≤ t) (h2 : t < k + m) :
    obsValue (seqFrom k m) t = t - k := by
  induction m generalizing k with
  | zero => omega
  | succ m ih =>
    by_cases h : k = t
    · simp [seqFrom, obsValue, h]
    · have hk1 : k + 1 ≤ t := by omega
      have := ih (k + 1) hk1 (by omega)
      simp only [seqFrom, obsValue, if_neg h, this]
      omega

theorem count_seqFrom_read (m k t : Nat) :
    (seqFrom k m).count (CtrOp.read t) = if k ≤ t ∧ t < k + m then 1 else 0 := by
  induction m generalizing k with
  | zero =>
    rw [if_neg (by omega)]
    rfl
  | succ m ih =>
    simp only [seqFrom, List.count_cons, ih (k + 1), beq_iff_eq]
    split_ifs <;> simp_all <;> omega

theorem count_seqFrom_add (m k t : Nat) :
    (seqFrom k m).count (CtrOp.add t) = if k ≤ t ∧ t < k + m then 1 else 0 := by
  induction m generalizing k with
  | zero =>
    rw [if_neg (by omega)]
    rfl
  | succ m ih =>
    simp only [seqFrom, List.count_cons, ih (k + 1), beq_iff_eq]
    split_ifs <;> simp_all <;> omega

theorem readBeforeAdd_seqFrom (m k t : Nat) (h1 : k ≤ t) (h2 : t < k + m) :
    readBeforeAdd (seqFrom k m) t = true := by
  induction m generalizing k with
  | zero => omega
  | succ m ih =>
    by_cases h : k = t
    · simp [seqFrom, readBeforeAdd, h]
    · have := ih (k + 1) (by omega) (by omega)
      simp only [seqFrom, readBeforeAdd, if_neg h, this]

theorem task_seqFrom_lt (m k : Nat) :
    ∀ op ∈ seqFrom k m, CtrOp.task op < k + m := by
  induction m generalizing k with
  | zero => intro op hop; cases hop
  | succ m ih =>
    intro op hop
    rcases hop with _ | ⟨_, hop⟩
    · simp [CtrOp.task]
    · rcases hop with _ | ⟨_, hop⟩
      · simp [CtrOp.task]
      · have := ih (k + 1) op hop
        omega

theorem validSched_seqSched (n : Nat) : ValidSched n (seqSched n) := by
  constructor
  · intro t ht
    refine ⟨?_, ?_, ?_⟩
    · rw [seqSched, count_seqFrom_read, if_pos ⟨Nat.zero_le t, by omega⟩]
    · rw [seqSched, count_seqFrom_add, if_pos ⟨Nat.zero_le t, by omega⟩]
    · exact readBeforeAdd_seqFrom n 0 t (Nat.zero_le t) (by omega)
  · intro op hop
    have := task_seqFrom_lt n 0 op hop
    omega

theorem accumulate_eq_sum (l : List TaskResult) :
    accumulate l = (l.map TaskResult.bytes).sum := by
  have key : ∀ (l : List TaskResult) (a : Nat),
      l.foldl (fun acc r => acc + r.bytes) a = a + (l.map TaskResult.bytes).sum := by
    intro l
    induction l with
    | nil => intro a; simp
    | cons r rest ih =>
      intro a
      simp only [List.foldl_cons, List.map_cons, List.sum_cons, ih]
      omega
  simpa using key l 0

theorem firstErr_expected (results : List TaskResult)
    (h : ∀ r ∈ results, r.err = none ∨ r.err = some GoErr.deadlineExceeded) :
    isUnexpectedError (firstErr results) = false := by
  induction results with
  | nil => rfl
  | cons r rest ih =>
    rcases h r (by simp) with h0 | h0
    · simp only [firstErr, h0]
      exact ih (fun r hr => h r (by simp [hr]))
    · simp [firstErr, h0, isUnexpectedError]

theorem isUnexpectedError_some {e : GoErr} (h : e ≠ GoErr.deadlineExceeded) :
    isUnexpectedError (some e) = true := by
  cases e with
  | deadlineExceeded => exact absurd rfl h
  | canceled => rfl
  | other m => rfl

/-- C1, counterexample: the worker reads the dispatch counter with a plain
(non-atomic) load in line 55 and increments it with a separate atomic add
in line 56, so two concurrently started units can observe the same counter
value.  In the interleaving read 0, read 1, add 0, add 1 of a two-element
pool, unit 1 observes counter value 0 and is assigned index 0, not
1 mod 2 = 1: the claim as stated is false. -/
theorem c1_counterexample : ¬ClaimC1Stated := by
  intro h
  have h2 := h ["a", "b"] 2 [CtrOp.read 0, CtrOp.read 1, CtrOp.add 0, CtrOp.add 1] 1
    (by decide) (by decide) (by decide)
  exact absurd h2 (by decide)

/-- C1 (amended): each dispatched unit reads the counter once and
increments it exactly once, its read before its add (ValidSched holds of
the serialized interleaving), and whenever the read-increment pairs of the units
execute serially in dispatch order, unit t of a non-empty pool is assigned
the endpoint at index t mod L, for every sequence number below 2^31 (the
int32 dispatch counter wraps above that). -/
theorem c1_round_robin_serialized (urls : List String) (n t : Nat)
    (hne : urls ≠ []) (htn : t < n) (h31 : t < 2 ^ 31) :
    ValidSched n (seqSched n) ∧
    taskURL urls (seqSched n) t = PanicOr.ok (urls[t % urls.length]!) := by
  refine ⟨validSched_seqSched n, ?_⟩
  unfold taskURL
  rw [seqSched, obsValue_seqFrom n 0 t (Nat.zero_le t) (by omega), Nat.sub_zero]
  exact selectURL_eq_ok urls t hne h31

/-- C1, witness: ten serialized units over a three-element pool; unit 4 is
assigned index 4 mod 3 = 1. -/
theorem c1_witness :
    ValidSched 10 (seqSched 10) ∧
    taskURL ["a", "b", "c"] (seqSched 10) 4 = PanicOr.ok "b" :=
  c1_round_robin_serialized ["a", "b", "c"] 10 4 (by decide) (by decide) (by decide)

/-- C2: with all eight slots held, a ninth acquisition that fails with the
deadline error is still dispatched (line 50 only returns on unexpected
errors, then falls through to wg.Go in line 53), so nine fetch units are
concurrently in flight and one of them never acquired a limiter slot: the
8-bound and the acquire-before-start discipline are both violated. -/
theorem c2_nine_in_flight :
    (runEvents overloadTrace initSt).map
        (fun st => (st.slotted + st.phantom, st.phantomLaunched)) =
      some (maxConcurrentRequests + 1, 1) := rfl

/-- C3: when the deadline expires while sem.Acquire waits, the unit is
dispatched without a held slot and its deferred sem.Release(1) makes total
releases exceed total acquisitions, so draining the run panics the process
(semaphore: released more than held) instead of Measure returning a nil
error with the accumulated throughput. -/
theorem c3_panic_on_deadline_acquire :
    Measure okScrapeEnv deadlineAcquireTrace [⟨0, some GoErr.deadlineExceeded⟩] 10 =
      some (MeasureOutcome.panic "semaphore: released more than held") := rfl

/-- C4, counterexample: errgroup.Wait returns the first non-nil goroutine
error in completion order, so an unexpected error that completes after a
deadline-classified error is masked: with results (5 bytes, deadline),
(7 bytes, connection refused), Measure returns the accumulated throughput
12/10 with a nil error, not the connection error with zero throughput. -/
theorem c4_counterexample : ¬ClaimC4Stated := by
  intro h
  have h2 := h okScrapeEnv ["https://u"] twoDispatchTrace
    [⟨5, some GoErr.deadlineExceeded⟩, ⟨7, some (GoErr.other "connection refused")⟩] 10
    ⟨true, false, true, 0, 0, 0, 2, 0, 0, false, none⟩
    ⟨7, some (GoErr.other "connection refused")⟩ (GoErr.other "connection refused")
    rfl (by decide) rfl (by decide) rfl rfl (by decide) rfl (by decide)
  have h3 : Measure okScrapeEnv twoDispatchTrace
      [⟨5, some GoErr.deadlineExceeded⟩, ⟨7, some (GoErr.other "connection refused")⟩] 10 =
      some (MeasureOutcome.result
        ((accumulate [⟨5, some GoErr.deadlineExceeded⟩,
          ⟨7, some (GoErr.other "connection refused")⟩] : ℚ) / 10) none) := rfl
  rw [h3] at h2
  simp at h2

/-- C4 (amended): if the error of a dispatched fetch not attributable to
the deadline is the first non-nil error in completion order, Measure
returns that error together with zero throughput, the accumulated bytes
being discarded, however the other fetches fared. -/
theorem c4_first_error_abort (senv : ScrapeEnv) (urls : List String)
    (events : List Ev) (results : List TaskResult) (elapsed : ℚ)
    (st : LoopSt) (e : GoErr)
    (hurls : findURLs senv = PanicOr.ok urls)
    (hrun : runEvents events initSt = some st)
    (hdone : st.completed) (hnoret : st.returnedErr = none)
    (hnopanic : st.panicked = false) (hne : urls ≠ [])
    (hlen : results.length = st.dispatched)
    (hfirst : firstErr results = some e) (hun : e ≠ GoErr.deadlineExceeded) :
    Measure senv events results elapsed =
      some (MeasureOutcome.result 0 (some e)) := by
  unfold Measure
  rw [hurls]
  unfold measureLoop
  rw [hrun]
  simp [hnopanic, hnoret, poolPanic, hne, hfirst, isUnexpectedError_some hun]

/-- C4, witness: the unexpected error completed first, so it is returned
with zero throughput and the 12 accumulated bytes are discarded. -/
theorem c4_witness :
    Measure okScrapeEnv twoDispatchTrace
        [⟨5, some (GoErr.other "boom")⟩, ⟨7, none⟩] 10 =
      some (MeasureOutcome.result 0 (some (GoErr.other "boom"))) :=
  c4_first_error_abort okScrapeEnv ["https://u"] twoDispatchTrace
    [⟨5, some (GoErr.other "boom")⟩, ⟨7, none⟩] 10
    ⟨true, false, true, 0, 0, 0, 2, 0, 0, false, none⟩ (GoErr.other "boom")
    rfl rfl (by decide) rfl rfl (by decide) rfl rfl (by decide)

/-- C5: on the success path (loop broken on the deadline, all goroutines
joined, no unexpected first error, no panic), Measure returns the byte
accumulator total divided by the elapsed seconds taken after the join,
with a nil error; the value is non-negative and is zero when no bytes
were received. -/
theorem c5_throughput (senv : ScrapeEnv) (urls : List String)
    (events : List Ev) (results : List TaskResult) (elapsed : ℚ) (st : LoopSt)
    (hurls : findURLs senv = PanicOr.ok urls)
    (hrun : runEvents events initSt = some st)
    (hdone : st.completed) (hnoret : st.returnedErr = none)
    (hnopanic : st.panicked = false)
    (hpool : urls ≠ [] ∨ st.dispatched = 0)
    (hlen : results.length = st.dispatched)
    (hexp : isUnexpectedError (firstErr results) = false)
    (hel : 0 < elapsed) :
    Measure senv events results elapsed =
      some (MeasureOutcome.result ((accumulate results : ℚ) / elapsed) none) ∧
    0 ≤ (accumulate results : ℚ) / elapsed ∧
    (accumulate results = 0 → (accumulate results : ℚ) / elapsed = 0) := by
  refine ⟨?_, div_nonneg (Nat.cast_nonneg _) (le_of_lt hel),
    fun h0 => by rw [h0]; simp⟩
  have hl : ¬(¬st.dispatched = 0 ∧ urls = []) := by
    rintro ⟨h1, h2⟩
    rcases hpool with h | h
    · exact h h2
    · exact h1 h
  unfold Measure
  rw [hurls]
  unfold measureLoop
  rw [hrun]
  simp [hnopanic, hnoret, poolPanic, hl, hexp]

/-- C5, witness: two completed fetches with 12 bytes in total over 10
elapsed seconds. -/
theorem c5_witness :
    Measure okScrapeEnv twoDispatchTrace
        [⟨5, none⟩, ⟨7, some GoErr.deadlineExceeded⟩] 10 =
      some (MeasureOutcome.result
        ((accumulate [⟨5, none⟩, ⟨7, some GoErr.deadlineExceeded⟩] : ℚ) / 10) none) ∧
    0 ≤ (accumulate [⟨5, none⟩, ⟨7, some GoErr.deadlineExceeded⟩] : ℚ) / 10 ∧
    (accumulate [⟨5, none⟩, ⟨7, some GoErr.deadlineExceeded⟩] = 0 →
      (accumulate [⟨5, none⟩, ⟨7, some GoErr.deadlineExceeded⟩] : ℚ) / 10 = 0) :=
  c5_throughput okScrapeEnv ["https://u"] twoDispatchTrace
    [⟨5, none⟩, ⟨7, some GoErr.deadlineExceeded⟩] 10
    ⟨true, false, true, 0, 0, 0, 2, 0, 0, false, none⟩
    rfl rfl (by decide) rfl rfl (Or.inl (by decide)) rfl (by decide) (by norm_num)

/-- C6: the accumulator is the fold of the atomic adds of the workers, one add
per completed unit, in whatever order the units complete; for every
completion order (every permutation of the per-unit results) the final
value equals the exact sum of the individually returned byte counts - no
lost updates. -/
theorem c6_accumulate_perm (dispatchOrder completionOrder : List TaskResult)
    (hperm : completionOrder.Perm dispatchOrder) :
    accumulate completionOrder = (dispatchOrder.map TaskResult.bytes).sum := by
  rw [accumulate_eq_sum]
  exact (hperm.map TaskResult.bytes).sum_eq

/-- C6, witness: a three-unit completion order permuting the dispatch
order still accumulates the exact sum 6. -/
theorem c6_witness :
    accumulate [⟨2, none⟩, ⟨3, some GoErr.deadlineExceeded⟩, ⟨1, none⟩] =
      (([⟨1, none⟩, ⟨2, none⟩, ⟨3, some GoErr.deadlineExceeded⟩] :
          List TaskResult).map TaskResult.bytes).sum :=
  c6_accumulate_perm
    [⟨1, none⟩, ⟨2, none⟩, ⟨3, some GoErr.deadlineExceeded⟩]
    [⟨2, none⟩, ⟨3, some GoErr.deadlineExceeded⟩, ⟨1, none⟩] (by decide)

/-- C7: when the URL pool is empty, findURLs reports no error, Measure
enters the dispatch loop, and the first dispatched unit faults on the
modulo by the zero pool length (line 55) - the process crashes instead of
Measure returning a descriptive error before dispatch. -/
theorem c7_empty_pool_panics :
    findURLs emptyPoolScrapeEnv = PanicOr.ok [] ∧
    Measure emptyPoolScrapeEnv [Ev.enterDefault, Ev.acqRet none] [] 10 =
      some (MeasureOutcome.panic "integer divide by zero") :=
  ⟨rfl, rfl⟩

/-- C8: no extraction stage propagates an error - the Go signatures have
no error result.  A missing token yields the empty string (line 129), a
missing url field yields the empty slice (findURLs returns nil), and a
missing script name is an unguarded index panic (line 114), never a
distinct error value. -/
theorem c8_silent_extraction_failures :
    getToken ⟨none, ["app-a1b2.js"], none, [], none, []⟩ = PanicOr.ok "" ∧
    findURLs ⟨none, ["app-a1b2.js"], none, ["token:\"abc\""], none, []⟩ =
      PanicOr.ok [] ∧
    getToken ⟨none, [], none, [], none, []⟩ =
      PanicOr.panic "index out of range" :=
  ⟨rfl, rfl, rfl⟩

/-- C9: doMeasure never inspects the response status code (its result is
invariant under changing it), its error is nil exactly when request
construction, the transport call and the body copy all succeeded, and
absent request/transport failure it returns the streamed byte count with
the copy outcome - non-2xx responses included. -/
theorem c9_status_ignored (env : FetchEnv) (s : Nat) :
    doMeasure ⟨env.newRequestErr, env.doErr, s, env.copied, env.copyErr⟩ =
      doMeasure env ∧
    ((doMeasure env).2 = none ↔
      env.newRequestErr = none ∧ env.doErr = none ∧ env.copyErr = none) ∧
    (env.newRequestErr = none → env.doErr = none →
      doMeasure env = (env.copied, env.copyErr)) := by
  obtain ⟨nre, de, sc, cp, ce⟩ := env
  cases nre <;> cases de <;> cases ce <;> simp [doMeasure]

/-- C9, witness: a 404 response with 42 streamed bytes is a success with
the same result as any other status. -/
theorem c9_witness :
    doMeasure ⟨none, none, 200, 42, none⟩ = doMeasure ⟨none, none, 404, 42, none⟩ ∧
    doMeasure ⟨none, none, 404, 42, none⟩ = (42, none) :=
  ⟨(c9_status_ignored ⟨none, none, 404, 42, none⟩ 200).1,
   (c9_status_ignored ⟨none, none, 404, 42, none⟩ 200).2.2 rfl rfl⟩

/-- C10: when the landing page matches no app-*.js script name, getToken
indexes the first element of the empty match list (line 114), so Measure
crashes with an index-out-of-range panic instead of returning an error. -/
theorem c10_missing_script_panics (senv : ScrapeEnv) (events : List Ev)
    (results : List TaskResult) (elapsed : ℚ)
    (hs : senv.scriptNames = []) :
    Measure senv events results elapsed =
      some (MeasureOutcome.panic "index out of range") := by
  unfold Measure findURLs getToken
  rw [hs]

/-- C10, witness: a landing page with no matching script crashes the
run. -/
theorem c10_witness :
    Measure ⟨none, [], none, [], none, []⟩ [] [] 1 =
      some (MeasureOutcome.panic "index out of range") :=
  c10_missing_script_panics ⟨none, [], none, [], none, []⟩ [] [] 1 rfl

end Fast
